import Mathlib

/-!
# Verification of the Agon SDK request-lifecycle protocol

Shallow embedding of the Agon payment SDK (packages `@agonx402/types`,
`@agonx402/platform`, `@agonx402/client`) and proofs about the consumer
request orchestrator and the merchant request interceptor.

Network, time and randomness are modelled as oracle inputs: every backend
round-trip (`/authorize`, `/consume`, `/release`, `/account/create-token`,
`/proxy`, the merchant dispatch, the protected handler, the override signer
and the limit-exceeded callback) is a field of an environment record giving
the outcome that call would produce.  Each SDK entry point is then a pure
function from its configuration, its environment and its inputs to the final
result together with the ordered list of observable calls it performed.
-/

set_option autoImplicit false

namespace Agon

/-! ## JavaScript number model

The platform core serializes `bigint` amounts with `Number(amount)`
(`core.ts`, `authorize` and `buildPaymentRequiredResponse`).  JavaScript
numbers are IEEE-754 binary64 values; converting a `bigint` rounds it to the
nearest double, ties to even.  For integers this keeps at most the top 53
significand bits.  `jsNumberNat`/`jsNumberOfInt` implement exactly that
rounding on the integers (values beyond the double range, `≥ 2^1024`, would
overflow to infinity in JavaScript; monetary amounts never approach that and
the claims here never evaluate the function there). -/

/-- Round `a / 2^k` to the nearest integer, ties to even (the IEEE-754
default rounding used when a `bigint` is converted to a JS number). -/
def roundHalfEven (a : Nat) (k : Nat) : Nat :=
  let q := a / 2 ^ k
  let r := a % 2 ^ k
  let half := 2 ^ (k - 1)
  if r > half then q + 1
  else if r < half then q
  else if q % 2 = 0 then q else q + 1

/-- Fuel-driven floor base-2 logarithm (structurally recursive so that it
evaluates inside the kernel; with `fuel ≥ n` it is the usual `log2`). -/
def log2Fuel : Nat → Nat → Nat
  | 0, _ => 0
  | fuel + 1, n => if n ≥ 2 then log2Fuel fuel (n / 2) + 1 else 0

/-- JS `Number(a)` for a nonnegative `bigint` `a`: exact below `2^53`, otherwise
rounded to 53 significand bits (round-to-nearest, ties to even). -/
def jsNumberNat (a : Nat) : Nat :=
  if a ≤ 2 ^ 53 then a
  else
    let k := log2Fuel a a - 52
    roundHalfEven a k * 2 ^ k

/-- JS `Number(n)` for a `bigint` `n` (sign-magnitude, as binary64 is). -/
def jsNumberOfInt (n : Int) : Int :=
  if n < 0 then -(jsNumberNat n.natAbs : Int) else (jsNumberNat n.natAbs : Int)

/-! ## Shared wire schema and error taxonomy (`@agonx402/types`)

Error codes and denial reasons are modelled as plain strings carrying the
wire spellings from `errors.ts` and `reservation.ts`; the `AgonError` class
becomes the `AgonErr` structure below.  JS `Record<string, unknown>` details
are modelled by the `ErrDetails` structure listing exactly the keys the SDK
reads (`limit_type`, `requested`, `limit`, `daily_spent`, `merchant_domain`,
`override_available`, `sign_message`); an absent or non-conforming value is
`none`, so `override_available = some true` is JS `=== true`. -/

/-- A spending override pair (`SpendingOverride` in `spending.ts`). -/
structure SpendingOverride where
  signature : String
  message : String
  deriving DecidableEq, Repr

/-- The structured-details map carried by spending-limit denials
(`SpendingLimitExceededDetails` in `spending.ts`, read through
`AgonError.details`). -/
structure ErrDetails where
  limit_type : Option String := none
  requested : Option Int := none
  limit : Option Int := none
  daily_spent : Option Int := none
  merchant_domain : Option String := none
  override_available : Option Bool := none
  sign_message : Option String := none
  deriving DecidableEq, Repr

/-- The empty details record (`body.details ?? {}` in the `AgonError`
constructor). -/
def emptyDetails : ErrDetails := {}

/-- The `AgonError` class of `errors.ts`: HTTP status, error code, message
and optional structured details. -/
structure AgonErr where
  statusCode : Nat
  code : String
  message : String
  details : ErrDetails
  deriving DecidableEq, Repr

/-- Method `AgonError.isSpendingLimitExceeded()`. -/
def AgonErr.isSpendingLimitExceeded (e : AgonErr) : Bool :=
  e.code == "spending_limit_exceeded"

/-- Method `AgonError.isOverrideAvailable()`: spending-limit code and
`details.override_available === true`. -/
def AgonErr.isOverrideAvailable (e : AgonErr) : Bool :=
  e.code == "spending_limit_exceeded" && e.details.override_available == some true

/-- Method `AgonError.getOverrideSignMessage()`: the challenge to sign, only when an
override is available. -/
def AgonErr.getOverrideSignMessage (e : AgonErr) : Option String :=
  if e.isOverrideAvailable then e.details.sign_message else none

theorem jsNumberNat_small {a : Nat} (h : a ≤ 2 ^ 53) : jsNumberNat a = a := by
  unfold jsNumberNat
  rw [if_pos h]

/-- Integers of magnitude at most `2^53 - 1` cross the `Number(...)`
conversion unchanged. -/
theorem jsNumberOfInt_exact {n : Int} (h : n.natAbs ≤ 2 ^ 53 - 1) :
    jsNumberOfInt n = n := by
  unfold jsNumberOfInt
  have h' : n.natAbs ≤ 2 ^ 53 := le_trans h (by norm_num)
  rw [jsNumberNat_small h']
  split <;> omega

/-! ## Merchant platform core (`packages/platform/src/core.ts`)

JS header records `Record<string, string | string[] | undefined>` are
modelled as total functions from header names to `Option HeaderVal`; lookup
is exact on the key string, as JS property access is.  The JS nullish
coalescing `a ?? b` on lookups is `Option.orElse`; the truthiness test
`!x` is false exactly for a missing value and for the empty string (arrays,
even empty ones, are truthy). -/

/-- A header value as typed in `core.ts`: a string or an array of strings. -/
inductive HeaderVal where
  | str (s : String)
  | arr (l : List String)
  deriving DecidableEq, Repr

/-- A JS header record: property lookup by exact name. -/
def HeadersMap := String → Option HeaderVal

/-- JS truthiness of an optional header value (`!token` in `core.ts`):
missing and the empty string are falsy, arrays are always truthy. -/
def headerTruthy : Option HeaderVal → Bool
  | none => false
  | some (.str s) => s ≠ ""
  | some (.arr _) => true

/-- The expression `Array.isArray(x) ? x[0] : x` of `core.ts`: first array
element (JS `undefined`, i.e. `none`, on an empty array) or the string. -/
def headerFirst : HeaderVal → Option String
  | .str s => some s
  | .arr l => l.head?

/-- Method `AgonPlatformCore.extractConsumerToken`: look the token up under
the lowercased header name `x-agon-token`, then under the canonical spelling
`X-AGON-TOKEN`; a falsy result is `null`. -/
def extractConsumerToken (headers : HeadersMap) : Option String :=
  let token := (headers "x-agon-token").orElse fun _ => headers "X-AGON-TOKEN"
  if headerTruthy token then token.bind headerFirst else none

/-- Method `AgonPlatformCore.extractOverride`: both the signature and the
message header must be present (truthy) for an override to be used. -/
def extractOverride (headers : HeadersMap) : Option SpendingOverride :=
  let sig := (headers "x-agon-override-sig").orElse fun _ =>
    headers "X-AGON-OVERRIDE-SIG"
  let msg := (headers "x-agon-override-msg").orElse fun _ =>
    headers "X-AGON-OVERRIDE-MSG"
  if headerTruthy sig && headerTruthy msg then
    match sig.bind headerFirst, msg.bind headerFirst with
    | some s, some m => if s = "" || m = "" then none else some ⟨s, m⟩
    | _, _ => none
  else none

/-- The platform configuration fields that reach the payment-required body
(`AgonPlatformConfig` in `config.ts`). -/
structure PlatformCfg where
  agonUrl : String
  description : Option String := none
  mimeType : Option String := none
  deriving DecidableEq, Repr

/-- The `payment_info` object of a 402 body
(`AgonPlatformCore.buildPaymentRequiredResponse`). -/
structure PaymentInfo where
  price : Int
  currency : String
  description : String
  mime_type : Option String
  instructions : String
  register_url : String
  deriving DecidableEq, Repr

/-- The body of a 402 Payment Required response. -/
structure PaymentRequiredBody where
  error : String
  message : String
  payment_info : PaymentInfo
  deriving DecidableEq, Repr

/-- Method `AgonPlatformCore.buildPaymentRequiredResponse`: status 402 and
the structured body telling the consumer how to pay.  The price is
serialized with `Number(price)`. -/
def buildPaymentRequiredResponse (cfg : PlatformCfg) (price : Int) :
    Nat × PaymentRequiredBody :=
  (402,
    { error := "payment_required"
      message := "This resource requires payment via Agon"
      payment_info :=
        { price := jsNumberOfInt price
          currency := "USDC"
          description := cfg.description.getD "Protected resource"
          mime_type := cfg.mimeType
          instructions := "Include your Agon auth token as the X-AGON-TOKEN header (create via POST /account/create-token)"
          register_url := cfg.agonUrl ++ "/account/register" } })

/-- The JSON body sent by `AgonPlatformCore.authorize` to `POST /authorize`;
the amount is serialized with `Number(amount)` and the override key is only
present when an override was extracted. -/
structure AuthorizeBody where
  consumer_token : String
  request_id : String
  amount : Int
  override : Option SpendingOverride
  deriving DecidableEq, Repr

/-- Builds the `POST /authorize` body exactly as
`AgonPlatformCore.authorize` does. -/
def mkAuthorizeBody (consumerToken requestId : String) (amount : Int)
    (override : Option SpendingOverride) : AuthorizeBody :=
  { consumer_token := consumerToken
    request_id := requestId
    amount := jsNumberOfInt amount
    override := override }

/-- Status field of an `AuthorizeResponse` (`reservation.ts`). -/
inductive AuthStatus where
  | approved
  | denied
  deriving DecidableEq, Repr

/-- The wire `AuthorizeResponse` (`reservation.ts`): `reservation_id` is
nullable and `reason` is present on denials. -/
structure AuthorizeResponseW where
  reservation_id : Option String
  status : AuthStatus
  amount : Int
  expires_at : Option String
  reason : Option String
  deriving DecidableEq, Repr

/-! ## Merchant request interceptor (`next.ts` `withAgon`, `express.ts`
`agonMiddleware`)

The interceptor's backend round-trips and the protected handler are oracle
fields of `MerchantEnv`.  `consumeResult` and `releaseResult` model the
outcomes of the settle calls; the source wraps both in `try { ... } catch {}`
(or `.catch(() => {})`), so the interceptor's output never depends on them —
only the emitted call does. -/

/-- An observable call made by the merchant interceptor while handling one
inbound request.  `consume`/`release` carry the reservation id value the
source passes (`authResult.reservation_id!` — the non-null assertion is a
no-op at runtime, so the carried value is the wire field itself). -/
inductive Event where
  | authorize (body : AuthorizeBody)
  | handlerInvoke
  | consume (reservationId : Option String)
  | release (reservationId : Option String)
  deriving DecidableEq, Repr

/-- Events that settle the reservation: `consume` or `release`. -/
def Event.isSettle : Event → Bool
  | .consume _ => true
  | .release _ => true
  | _ => false

/-- The protected handler's response (opaque to the interceptor apart from
its status). -/
structure HandlerResp where
  status : Nat
  body : String
  deriving DecidableEq, Repr

/-- Oracle outcomes for one inbound merchant request: the computed price
(`calculatePrice` can throw), the generated request id, the `/authorize`
outcome (an `AgonError`, a non-Agon failure, or a wire response), the
handler outcome, and the settle-call outcomes. -/
structure MerchantEnv where
  price : Except Unit Int
  requestId : String
  auth : Except (AgonErr ⊕ Unit) AuthorizeResponseW
  handler : Except Unit HandlerResp
  consumeResult : Except Unit Unit
  releaseResult : Except Unit Unit

/-- A response produced by the Next.js wrapper: either a JSON response the
wrapper built itself, or the handler's response passed through unchanged. -/
inductive NextResult where
  | errJson (status : Nat) (code : String) (message : String)
  | paymentRequired (status : Nat) (body : PaymentRequiredBody)
      (denialReason : Option String)
  | agonErrorJson (status : Nat) (e : AgonErr)
  | fromHandler (r : HandlerResp)
  deriving DecidableEq, Repr

/-- The Next.js route wrapper `withAgon` (`next.ts`), as a pure function
from configuration, oracle and headers to the response and the ordered
backend-call trace.  Mirrors the source: price first, then the token check,
then authorize, then the handler, then exactly one settle call chosen by
`response.status < 400`. -/
def nextWithAgon (cfg : PlatformCfg) (env : MerchantEnv)
    (headers : HeadersMap) : NextResult × List Event :=
  let consumerToken := extractConsumerToken headers
  match env.price with
  | .error _ => (.errJson 500 "internal_error" "Failed to calculate price", [])
  | .ok price =>
    match consumerToken with
    | none =>
      let pr := buildPaymentRequiredResponse cfg price
      (.paymentRequired pr.1 pr.2 none, [])
    | some t =>
      if t = "" then
        let pr := buildPaymentRequiredResponse cfg price
        (.paymentRequired pr.1 pr.2 none, [])
      else
        let override := extractOverride headers
        let authCall := Event.authorize (mkAuthorizeBody t env.requestId price override)
        match env.auth with
        | .error (.inl e) => (.agonErrorJson e.statusCode e, [authCall])
        | .error (.inr _) =>
          (.errJson 502 "internal_error" "Payment authorization failed", [authCall])
        | .ok auth =>
          if auth.status = .denied then
            let pr := buildPaymentRequiredResponse cfg price
            (.paymentRequired 402 pr.2 auth.reason, [authCall])
          else
            let reservationId := auth.reservation_id
            match env.handler with
            | .error _ =>
              (.errJson 500 "internal_error" "Handler error",
                [authCall, .handlerInvoke, .release reservationId])
            | .ok response =>
              if response.status < 400 then
                (.fromHandler response,
                  [authCall, .handlerInvoke, .consume reservationId])
              else
                (.fromHandler response,
                  [authCall, .handlerInvoke, .release reservationId])

/-- Outcome of the Express middleware before the downstream handler runs:
an early response, or control passed to `next()` with the reservation id
recorded on the request. -/
inductive ExpressOutcome where
  | respond (r : NextResult)
  | proceed (reservationId : Option String)
  deriving DecidableEq, Repr

/-- The Express middleware `agonMiddleware` (`express.ts`) up to and
including the `next()` decision. -/
def expressAgonMiddleware (cfg : PlatformCfg) (env : MerchantEnv)
    (headers : HeadersMap) : ExpressOutcome × List Event :=
  let consumerToken := extractConsumerToken headers
  match env.price with
  | .error _ =>
    (.respond (.errJson 500 "internal_error" "Failed to calculate price"), [])
  | .ok price =>
    match consumerToken with
    | none =>
      let pr := buildPaymentRequiredResponse cfg price
      (.respond (.paymentRequired pr.1 pr.2 none), [])
    | some t =>
      if t = "" then
        let pr := buildPaymentRequiredResponse cfg price
        (.respond (.paymentRequired pr.1 pr.2 none), [])
      else
        let override := extractOverride headers
        let authCall := Event.authorize (mkAuthorizeBody t env.requestId price override)
        match env.auth with
        | .error (.inl e) => (.respond (.agonErrorJson e.statusCode e), [authCall])
        | .error (.inr _) =>
          (.respond (.errJson 502 "internal_error" "Payment authorization failed"),
            [authCall])
        | .ok auth =>
          if auth.status = .denied then
            let pr := buildPaymentRequiredResponse cfg price
            (.respond (.paymentRequired 402 pr.2 auth.reason), [authCall])
          else
            (.proceed auth.reservation_id, [authCall])

/-- The wrapped `res.end` installed by `agonMiddleware`: once the response
is committed with final status `statusCode`, consume on a sub-400 status,
release otherwise (both fire-and-forget, failures swallowed). -/
def expressSettle (reservationId : Option String) (statusCode : Nat) :
    List Event :=
  if statusCode < 400 then [.consume reservationId] else [.release reservationId]

/-- One whole Express request: the middleware, then — when it proceeded —
the downstream handler running once and committing a response with status
`handlerStatus`, which triggers the wrapped `res.end` settle call. -/
def expressRun (cfg : PlatformCfg) (env : MerchantEnv) (headers : HeadersMap)
    (handlerStatus : Nat) : List Event :=
  match expressAgonMiddleware cfg env headers with
  | (.respond _, evs) => evs
  | (.proceed rid, evs) => evs ++ [.handlerInvoke] ++ expressSettle rid handlerStatus

/-! ## Consumer client (`packages/client/src/client.ts`)

`AgonClient.fetch` and its two private recovery paths
(`handleSpendingLimitOverride` and `proxyX402`) are modelled with the same
oracle style.  The client configuration is reduced to the two facts the
control flow branches on: whether an API key is set (`requireAuth`) and
whether an `onLimitExceeded` callback is configured.  The decision returned
by the callback, the signer outcome and every network round-trip are fields
of `FetchEnv`. -/

/-- The JSON body `AgonClient.createAuthToken` sends to
`POST /account/create-token`: `ttl` is `opts?.ttl ?? 60` and `max_amount` is
spread in only when defined. -/
structure CreateTokenBody where
  ttl : Int
  max_amount : Option Int
  deriving DecidableEq, Repr

/-- Builds the `POST /account/create-token` body exactly as
`AgonClient.createAuthToken` does from its optional arguments. -/
def createTokenBody (ttl : Option Int) (maxAmount : Option Int) :
    CreateTokenBody :=
  { ttl := ttl.getD 60, max_amount := maxAmount }

/-- A parse of the JSON body of a 402 response, keeping the keys
`AgonClient.fetch` reads (`error`, `message`, `details`, `payment_info`). -/
structure ErrorBodyJson where
  error : Option String := none
  message : Option String := none
  details : Option ErrDetails := none
  payment_info : Option ErrDetails := none
  deriving DecidableEq, Repr

/-- A response observed by the client's dispatch: HTTP status, the
`PAYMENT-REQUIRED` header if present, and the outcome of `res.json()`. -/
structure DispatchRes where
  status : Nat
  paymentRequiredHeader : Option String
  jsonBody : Except Unit ErrorBodyJson
  deriving Repr

/-- The `AgonError` that `AgonClient.fetch` constructs from a parsed 402
denial body (`client.ts`, the `new AgonError(402, {...})` after
`res.json()`). -/
def mkFetchDenialErr (b : ErrorBodyJson) : AgonErr :=
  { statusCode := 402
    code := b.error.getD "insufficient_balance"
    message := b.message.getD "Payment required"
    details := ((b.details).orElse fun _ => b.payment_info).getD emptyDetails }

/-- The decision returned by the configured `onLimitExceeded` callback. -/
inductive Decision where
  | approve
  | reject
  deriving DecidableEq, Repr

/-- The data of a reconstructed proxy response
(`new Response(proxyResult.body, ...)`). -/
structure ProxyRespData where
  status : Nat
  body : String
  deriving DecidableEq, Repr

/-- The idempotency key `proxyX402` generates once per call:
`proxy_<Date.now()>_<random base-36 suffix>`. -/
def mkProxyRequestId (ts : Nat) (rand : String) : String :=
  "proxy_" ++ toString ts ++ "_" ++ rand

/-- The JSON body of a `POST /proxy` call (`proxyX402`): the forwarded
request, the base64url-encoded challenge (kept abstract as the raw header
string here — the encoding is injective and never inspected), the
idempotency key, and the override pair on the retry only. -/
structure ProxyBody where
  url : String
  method : String
  headers : Option (List (String × String))
  body : Option String
  payment_required : String
  request_id : String
  override : Option SpendingOverride
  deriving DecidableEq, Repr

/-- An observable call made by one `AgonClient.fetch` invocation. -/
inductive ClientEvent where
  | issueToken
  | dispatch
  | invokeCallback
  | sign
  | proxyPost (body : ProxyBody)
  deriving DecidableEq, Repr

/-- Oracle outcomes for one `AgonClient.fetch` call.  Each field is what the
corresponding awaited call would produce; a single call consults each at
most once. -/
structure FetchEnv where
  createToken : Except AgonErr Unit
  dispatch : DispatchRes
  decision : Decision
  sign : Except AgonErr SpendingOverride
  createToken2 : Except AgonErr Unit
  retryDispatch : DispatchRes
  proxyTs : Nat
  proxyRand : String
  proxyFirst : Except AgonErr ProxyRespData
  proxyRetry : Except AgonErr ProxyRespData

/-- What a successful `AgonClient.fetch` returns: an upstream response
passed through unchanged, or a response reconstructed from `POST /proxy`. -/
inductive FetchOut where
  | direct (r : DispatchRes)
  | proxied (p : ProxyRespData)
  deriving Repr

/-- The `AgonError` thrown by `requireAuth` when no API key is set. -/
def requireAuthErr : AgonErr :=
  { statusCode := 401
    code := "invalid_api_key"
    message := "API key not set. Call register() first or setApiKey() with an existing key."
    details := emptyDetails }

/-- Private method `AgonClient.handleSpendingLimitOverride`: invoke the
callback, and on approval sign the challenge, issue a fresh token and
dispatch the retry exactly once; a second 402 is terminal. -/
def handleSpendingLimitOverride (hasCallback : Bool) (env : FetchEnv)
    (error : AgonErr) : Except AgonErr FetchOut × List ClientEvent :=
  if !hasCallback then (.error error, [])
  else
    let signMsg := error.getOverrideSignMessage
    let evs := [ClientEvent.invokeCallback]
    if env.decision ≠ Decision.approve then (.error error, evs)
    else
      match signMsg with
      | none => (.error error, evs)
      | some _ =>
        match env.sign with
        | .error e => (.error e, evs ++ [.sign])
        | .ok _ =>
          match env.createToken2 with
          | .error e => (.error e, evs ++ [.sign, .issueToken])
          | .ok _ =>
            let evs := evs ++ [ClientEvent.sign, .issueToken, .dispatch]
            let retryRes := env.retryDispatch
            if retryRes.status = 402 then
              match retryRes.jsonBody with
              | .error _ => (.error error, evs)
              | .ok rb =>
                (.error
                  { statusCode := 402
                    code := rb.error.getD "spending_limit_exceeded"
                    message := rb.message.getD "Spending limit override failed"
                    details := rb.details.getD emptyDetails }, evs)
            else (.ok (.direct retryRes), evs)

/-- Private method `AgonClient.proxyX402`: generate the idempotency key
once, post to `/proxy`, and on a spending-limit denial with override
available (and an approving callback) post once more with the override and
the same `request_id`.  A non-`AgonError` failure of the first post
propagates identically (terminal, no retry), so the error channel is
collapsed to `AgonErr`. -/
def proxyX402 (hasCallback : Bool) (env : FetchEnv) (url : String)
    (method : Option String) (initHeaders : Option (List (String × String)))
    (initBody : Option String) (paymentRequired : String) :
    Except AgonErr FetchOut × List ClientEvent :=
  let requestId := mkProxyRequestId env.proxyTs env.proxyRand
  let firstBody : ProxyBody :=
    { url := url
      method := method.getD "GET"
      headers := initHeaders
      body := initBody
      payment_required := paymentRequired
      request_id := requestId
      override := none }
  match env.proxyFirst with
  | .ok res => (.ok (.proxied res), [.proxyPost firstBody])
  | .error e =>
    let evs := [ClientEvent.proxyPost firstBody]
    if !(e.isSpendingLimitExceeded && e.isOverrideAvailable) then (.error e, evs)
    else if !hasCallback then (.error e, evs)
    else
      let signMsg := e.getOverrideSignMessage
      let evs := evs ++ [ClientEvent.invokeCallback]
      if env.decision ≠ Decision.approve then (.error e, evs)
      else
        match signMsg with
        | none => (.error e, evs)
        | some _ =>
          match env.sign with
          | .error se => (.error se, evs ++ [.sign])
          | .ok ov =>
            let retryBody : ProxyBody := { firstBody with override := some ov }
            let evs := evs ++ [ClientEvent.sign, .proxyPost retryBody]
            match env.proxyRetry with
            | .error re => (.error re, evs)
            | .ok r => (.ok (.proxied r), evs)

/-- Method `AgonClient.fetch`: issue a token, dispatch, and interpret a 402
as x402 passthrough (header present), a recoverable spending-limit denial,
or a terminal error. -/
def fetchAgon (hasApiKey hasCallback : Bool) (env : FetchEnv) (url : String)
    (method : Option String) (initHeaders : Option (List (String × String)))
    (initBody : Option String) : Except AgonErr FetchOut × List ClientEvent :=
  if !hasApiKey then (.error requireAuthErr, [])
  else
    match env.createToken with
    | .error e => (.error e, [.issueToken])
    | .ok _ =>
      let evs := [ClientEvent.issueToken, .dispatch]
      let res := env.dispatch
      if res.status ≠ 402 then (.ok (.direct res), evs)
      else
        match res.paymentRequiredHeader with
        | some pr =>
          let out := proxyX402 hasCallback env url method initHeaders initBody pr
          (out.1, evs ++ out.2)
        | none =>
          match res.jsonBody with
          | .error _ =>
            (.error
              { statusCode := 402
                code := "insufficient_balance"
                message := "Payment required but no details available"
                details := emptyDetails }, evs)
          | .ok body =>
            let error := mkFetchDenialErr body
            if error.isSpendingLimitExceeded && error.isOverrideAvailable then
              let out := handleSpendingLimitOverride hasCallback env error
              (out.1, evs ++ out.2)
            else (.error error, evs)

/-! ## Claim theorems -/

/-- C5: for every inbound request whose token header is absent (the
extraction yields `null`), the Next.js interceptor responds 402 with the
structured payment-required body — error `payment_required`, and a
`payment_info` object carrying the price, currency `USDC`, description,
MIME type and token-obtaining instructions — and performs no backend call
at all (no authorize, consume or release). -/
theorem C5_no_token_402_no_backend (cfg : PlatformCfg) (env : MerchantEnv)
    (headers : HeadersMap) (p : Int)
    (hp : env.price = .ok p)
    (ht : extractConsumerToken headers = none) :
    nextWithAgon cfg env headers =
      (.paymentRequired 402 (buildPaymentRequiredResponse cfg p).2 none, []) ∧
    (buildPaymentRequiredResponse cfg p).2.error = "payment_required" ∧
    (buildPaymentRequiredResponse cfg p).2.payment_info.currency = "USDC" ∧
    (buildPaymentRequiredResponse cfg p).2.payment_info.price = jsNumberOfInt p ∧
    (buildPaymentRequiredResponse cfg p).2.payment_info.description =
      cfg.description.getD "Protected resource" ∧
    (buildPaymentRequiredResponse cfg p).2.payment_info.mime_type = cfg.mimeType ∧
    (buildPaymentRequiredResponse cfg p).2.payment_info.instructions =
      "Include your Agon auth token as the X-AGON-TOKEN header (create via POST /account/create-token)" := by
  refine ⟨?_, rfl, rfl, rfl, rfl, rfl, rfl⟩
  simp [nextWithAgon, hp, ht, buildPaymentRequiredResponse]

/-- Closed witness for C5 at a concrete configuration, environment and
header map without a token. -/
theorem C5_no_token_402_no_backend_witness :
    nextWithAgon { agonUrl := "https://api.agon.so" }
        { price := .ok 1000, requestId := "req_1",
          auth := .ok { reservation_id := some "res_1", status := .approved,
                        amount := 1000, expires_at := none, reason := none },
          handler := .ok { status := 200, body := "ok" },
          consumeResult := .ok (), releaseResult := .ok () }
        (fun _ => none) =
      (.paymentRequired 402
        (buildPaymentRequiredResponse { agonUrl := "https://api.agon.so" } 1000).2
        none, []) :=
  (C5_no_token_402_no_backend _ _ _ 1000 rfl (by decide)).1

/-- C6: for every inbound request whose authorize call returns `denied`,
both the Next.js wrapper and the Express middleware respond 402 with the
payment-required body augmented with the backend's denial reason, and the
protected handler is never invoked. -/
theorem C6_denied_402_handler_never_invoked (cfg : PlatformCfg)
    (env : MerchantEnv) (headers : HeadersMap) (p : Int) (t : String)
    (a : AuthorizeResponseW)
    (hp : env.price = .ok p)
    (htok : extractConsumerToken headers = some t) (ht : t ≠ "")
    (hauth : env.auth = .ok a) (hden : a.status = .denied) :
    nextWithAgon cfg env headers =
      (.paymentRequired 402 (buildPaymentRequiredResponse cfg p).2 a.reason,
        [Event.authorize (mkAuthorizeBody t env.requestId p (extractOverride headers))]) ∧
    Event.handlerInvoke ∉ (nextWithAgon cfg env headers).2 ∧
    expressAgonMiddleware cfg env headers =
      (.respond (.paymentRequired 402 (buildPaymentRequiredResponse cfg p).2 a.reason),
        [Event.authorize (mkAuthorizeBody t env.requestId p (extractOverride headers))]) := by
  refine ⟨?_, ?_, ?_⟩ <;>
    simp [nextWithAgon, expressAgonMiddleware, hp, htok, ht, hauth, hden]

/-- Closed witness for C6: a denied authorize outcome at a concrete
environment produces the 402 denial response on both adapters and no
handler invocation. -/
theorem C6_denied_402_handler_never_invoked_witness :
    nextWithAgon { agonUrl := "https://api.agon.so" }
        { price := .ok 1000, requestId := "req_1",
          auth := .ok { reservation_id := none, status := .denied,
                        amount := 1000, expires_at := none,
                        reason := some "insufficient_balance" },
          handler := .ok { status := 200, body := "ok" },
          consumeResult := .ok (), releaseResult := .ok () }
        (fun k => if k = "x-agon-token" then some (.str "tok_1") else none) =
      (.paymentRequired 402
        (buildPaymentRequiredResponse { agonUrl := "https://api.agon.so" } 1000).2
        (some "insufficient_balance"),
        [Event.authorize (mkAuthorizeBody "tok_1" "req_1" 1000 none)]) := by
  have h := C6_denied_402_handler_never_invoked
    { agonUrl := "https://api.agon.so" }
    { price := .ok 1000, requestId := "req_1",
      auth := .ok { reservation_id := none, status := .denied,
                    amount := 1000, expires_at := none,
                    reason := some "insufficient_balance" },
      handler := .ok { status := 200, body := "ok" },
      consumeResult := .ok (), releaseResult := .ok () }
    (fun k => if k = "x-agon-token" then some (.str "tok_1") else none)
    1000 "tok_1" _ rfl (by decide) (by decide) rfl rfl
  simpa using h.1

/-- C1: for every inbound request whose authorize call returns approved and
whose protected handler returns a response, the interceptor performs exactly
one settle call on the reservation id — `consume` when the response status
is in the success range (the code's success range is `status < 400`),
`release` otherwise — never both and never neither.  Stated for the Next.js
wrapper and, for every final committed status, for the Express
middleware-plus-handler run. -/
theorem C1_settle_exactly_once (cfg : PlatformCfg) (env : MerchantEnv)
    (headers : HeadersMap) (p : Int) (t : String) (a : AuthorizeResponseW)
    (r : HandlerResp)
    (hp : env.price = .ok p)
    (htok : extractConsumerToken headers = some t) (ht : t ≠ "")
    (hauth : env.auth = .ok a) (happ : a.status = .approved)
    (hh : env.handler = .ok r) :
    (nextWithAgon cfg env headers).2.filter Event.isSettle =
      [if r.status < 400 then Event.consume a.reservation_id
        else Event.release a.reservation_id] ∧
    ∀ s : Nat, (expressRun cfg env headers s).filter Event.isSettle =
      [if s < 400 then Event.consume a.reservation_id
        else Event.release a.reservation_id] := by
  constructor
  · by_cases hr : r.status < 400 <;>
      simp [nextWithAgon, hp, htok, ht, hauth, happ, hh, hr, Event.isSettle]
  · intro s
    by_cases hs : s < 400 <;>
      simp [expressRun, expressAgonMiddleware, expressSettle, hp, htok, ht,
        hauth, happ, hs, Event.isSettle]

/-- Closed witness for C1: with an approved reservation `res_1` and a
200-status handler response, the Next.js trace settles exactly by one
`consume res_1`, and the Express run with final status 500 settles exactly
by one `release res_1`. -/
theorem C1_settle_exactly_once_witness :
    (nextWithAgon { agonUrl := "https://api.agon.so" }
        { price := .ok 1000, requestId := "req_1",
          auth := .ok { reservation_id := some "res_1", status := .approved,
                        amount := 1000, expires_at := none, reason := none },
          handler := .ok { status := 200, body := "ok" },
          consumeResult := .ok (), releaseResult := .ok () }
        (fun k => if k = "x-agon-token" then some (.str "tok_1") else none)).2.filter
        Event.isSettle = [Event.consume (some "res_1")] ∧
    (expressRun { agonUrl := "https://api.agon.so" }
        { price := .ok 1000, requestId := "req_1",
          auth := .ok { reservation_id := some "res_1", status := .approved,
                        amount := 1000, expires_at := none, reason := none },
          handler := .ok { status := 200, body := "ok" },
          consumeResult := .ok (), releaseResult := .ok () }
        (fun k => if k = "x-agon-token" then some (.str "tok_1") else none)
        500).filter Event.isSettle = [Event.release (some "res_1")] := by
  have h := C1_settle_exactly_once
    { agonUrl := "https://api.agon.so" }
    { price := .ok 1000, requestId := "req_1",
      auth := .ok { reservation_id := some "res_1", status := .approved,
                    amount := 1000, expires_at := none, reason := none },
      handler := .ok { status := 200, body := "ok" },
      consumeResult := .ok (), releaseResult := .ok () }
    (fun k => if k = "x-agon-token" then some (.str "tok_1") else none)
    1000 "tok_1" _ _ rfl (by decide) (by decide) rfl rfl rfl
  exact ⟨by simpa using h.1, by simpa using h.2 500⟩

/-- C2: for every inbound request whose authorize call returns approved, if
the protected handler throws then the Next.js interceptor performs exactly
one `release` on the reservation id, responds 500 with code
`internal_error` (in particular, never a 402), and the response does not
depend on the outcome of the release call (a release failure is
swallowed). -/
theorem C2_handler_throw_release_500 (cfg : PlatformCfg) (env : MerchantEnv)
    (headers : HeadersMap) (p : Int) (t : String) (a : AuthorizeResponseW)
    (hp : env.price = .ok p)
    (htok : extractConsumerToken headers = some t) (ht : t ≠ "")
    (hauth : env.auth = .ok a) (happ : a.status = .approved)
    (hh : env.handler = .error ()) :
    (nextWithAgon cfg env headers).1 =
      .errJson 500 "internal_error" "Handler error" ∧
    (nextWithAgon cfg env headers).2.filter Event.isSettle =
      [Event.release a.reservation_id] ∧
    ∀ rel : Except Unit Unit,
      nextWithAgon cfg { env with releaseResult := rel } headers =
        nextWithAgon cfg env headers := by
  refine ⟨?_, ?_, fun rel => rfl⟩ <;>
    simp [nextWithAgon, hp, htok, ht, hauth, happ, hh, Event.isSettle]

/-- Closed witness for C2: a throwing handler after an approved authorize
yields the 500 `internal_error` response and exactly one release of
`res_1`, identically for a failing release call. -/
theorem C2_handler_throw_release_500_witness :
    (nextWithAgon { agonUrl := "https://api.agon.so" }
        { price := .ok 1000, requestId := "req_1",
          auth := .ok { reservation_id := some "res_1", status := .approved,
                        amount := 1000, expires_at := none, reason := none },
          handler := .error (),
          consumeResult := .ok (), releaseResult := .error () }
        (fun k => if k = "x-agon-token" then some (.str "tok_1") else none)).1 =
      .errJson 500 "internal_error" "Handler error" ∧
    (nextWithAgon { agonUrl := "https://api.agon.so" }
        { price := .ok 1000, requestId := "req_1",
          auth := .ok { reservation_id := some "res_1", status := .approved,
                        amount := 1000, expires_at := none, reason := none },
          handler := .error (),
          consumeResult := .ok (), releaseResult := .error () }
        (fun k => if k = "x-agon-token" then some (.str "tok_1") else none)).2.filter
        Event.isSettle = [Event.release (some "res_1")] := by
  have h := C2_handler_throw_release_500
    { agonUrl := "https://api.agon.so" }
    { price := .ok 1000, requestId := "req_1",
      auth := .ok { reservation_id := some "res_1", status := .approved,
                    amount := 1000, expires_at := none, reason := none },
      handler := .error (),
      consumeResult := .ok (), releaseResult := .error () }
    (fun k => if k = "x-agon-token" then some (.str "tok_1") else none)
    1000 "tok_1" _ rfl (by decide) (by decide) rfl rfl rfl
  exact ⟨h.1, h.2.1⟩

/-- C3: in every call to `handleSpendingLimitOverride`, the retried dispatch
is performed at most once; when it is performed it is the last observable
call of that invocation (so no further token issuance, signing or dispatch
follows it), and if the retry response has status 402 again, the call
terminates by throwing an `AgonError`. -/
theorem C3_override_retry_dispatch_once (hasCallback : Bool) (env : FetchEnv)
    (error : AgonErr) :
    (handleSpendingLimitOverride hasCallback env error).2.count
      ClientEvent.dispatch ≤ 1 ∧
    (ClientEvent.dispatch ∈ (handleSpendingLimitOverride hasCallback env error).2 →
      (handleSpendingLimitOverride hasCallback env error).2.count
        ClientEvent.dispatch = 1 ∧
      (handleSpendingLimitOverride hasCallback env error).2.getLast? =
        some ClientEvent.dispatch ∧
      (env.retryDispatch.status = 402 →
        ∃ e : AgonErr,
          (handleSpendingLimitOverride hasCallback env error).1 = .error e)) := by
  unfold handleSpendingLimitOverride
  cases hasCallback with
  | false => simp
  | true =>
    cases hd : env.decision with
    | reject => simp [hd]
    | approve =>
      rcases hs : error.getOverrideSignMessage with _ | m
      · simp [hd, hs]
      · rcases hg : env.sign with e | ov
        · simp [hd, hs, hg]
        · rcases hc : env.createToken2 with e2 | u
          · simp [hd, hs, hg, hc]
          · by_cases hr : env.retryDispatch.status = 402
            · rcases hj : env.retryDispatch.jsonBody with u2 | rb <;>
                simp [hd, hs, hg, hc, hr, hj]
            · simp [hd, hs, hg, hc, hr]

/-- Closed witness for C3: a concrete override retry whose retried dispatch
returns 402 again performs exactly one dispatch, ends on it, and throws. -/
theorem C3_override_retry_dispatch_once_witness :
    (handleSpendingLimitOverride true
        { createToken := .ok (),
          dispatch := { status := 402, paymentRequiredHeader := none,
                        jsonBody := .error () },
          decision := .approve,
          sign := .ok { signature := "sig_1", message := "agon:override:m" },
          createToken2 := .ok (),
          retryDispatch := { status := 402, paymentRequiredHeader := none,
                             jsonBody := .error () },
          proxyTs := 0, proxyRand := "r", proxyFirst := .error requireAuthErr,
          proxyRetry := .error requireAuthErr }
        { statusCode := 402, code := "spending_limit_exceeded",
          message := "limit",
          details := { override_available := some true,
                       sign_message := some "agon:override:m" } }).2.count
      ClientEvent.dispatch = 1 ∧
    ∃ e : AgonErr,
      (handleSpendingLimitOverride true
        { createToken := .ok (),
          dispatch := { status := 402, paymentRequiredHeader := none,
                        jsonBody := .error () },
          decision := .approve,
          sign := .ok { signature := "sig_1", message := "agon:override:m" },
          createToken2 := .ok (),
          retryDispatch := { status := 402, paymentRequiredHeader := none,
                             jsonBody := .error () },
          proxyTs := 0, proxyRand := "r", proxyFirst := .error requireAuthErr,
          proxyRetry := .error requireAuthErr }
        { statusCode := 402, code := "spending_limit_exceeded",
          message := "limit",
          details := { override_available := some true,
                       sign_message := some "agon:override:m" } }).1 = .error e := by
  have h := C3_override_retry_dispatch_once true
    { createToken := .ok (),
      dispatch := { status := 402, paymentRequiredHeader := none,
                    jsonBody := .error () },
      decision := .approve,
      sign := .ok { signature := "sig_1", message := "agon:override:m" },
      createToken2 := .ok (),
      retryDispatch := { status := 402, paymentRequiredHeader := none,
                         jsonBody := .error () },
      proxyTs := 0, proxyRand := "r", proxyFirst := .error requireAuthErr,
      proxyRetry := .error requireAuthErr }
    { statusCode := 402, code := "spending_limit_exceeded",
      message := "limit",
      details := { override_available := some true,
                   sign_message := some "agon:override:m" } }
  have h2 := h.2 (by decide)
  exact ⟨h2.1, h2.2.2 rfl⟩

/-- C4: `AgonClient.fetch` recovers locally from exactly one class of
structured 402 denial.  Given a 402 response without the x402 passthrough
header: (1) if the call returns a response at all, the denial body parsed,
its code is `spending_limit_exceeded`, `details.override_available` is
`true` and a callback is configured; (2) every denial outside that class is
raised as the constructed `AgonError`; (3) an override-eligible denial
without a configured callback is raised as that `AgonError`; and (4) an
unparseable 402 body is raised as an `AgonError` as well. -/
theorem C4_fetch_recovers_one_denial_class (hasCallback : Bool)
    (env : FetchEnv) (url : String) (method : Option String)
    (initHeaders : Option (List (String × String))) (initBody : Option String)
    (hct : env.createToken = .ok ())
    (hs : env.dispatch.status = 402)
    (hh : env.dispatch.paymentRequiredHeader = none) :
    (∀ out : FetchOut,
      (fetchAgon true hasCallback env url method initHeaders initBody).1 = .ok out →
      ∃ b : ErrorBodyJson, env.dispatch.jsonBody = .ok b ∧
        (mkFetchDenialErr b).code = "spending_limit_exceeded" ∧
        (mkFetchDenialErr b).details.override_available = some true ∧
        hasCallback = true) ∧
    (∀ b : ErrorBodyJson, env.dispatch.jsonBody = .ok b →
      ¬((mkFetchDenialErr b).isSpendingLimitExceeded = true ∧
        (mkFetchDenialErr b).isOverrideAvailable = true) →
      (fetchAgon true hasCallback env url method initHeaders initBody).1 =
        .error (mkFetchDenialErr b)) ∧
    (∀ b : ErrorBodyJson, env.dispatch.jsonBody = .ok b →
      hasCallback = false →
      (fetchAgon true hasCallback env url method initHeaders initBody).1 =
        .error (mkFetchDenialErr b)) ∧
    (env.dispatch.jsonBody = .error () →
      (fetchAgon true hasCallback env url method initHeaders initBody).1 =
        .error { statusCode := 402, code := "insufficient_balance",
                 message := "Payment required but no details available",
                 details := emptyDetails }) := by
  refine ⟨?_, ?_, ?_, ?_⟩
  · intro out hout
    rcases hj : env.dispatch.jsonBody with u | b
    · simp [fetchAgon, hct, hs, hh, hj] at hout
    · refine ⟨b, rfl, ?_⟩
      by_cases hcl : (mkFetchDenialErr b).isSpendingLimitExceeded = true ∧
          (mkFetchDenialErr b).isOverrideAvailable = true
      · rcases hcl with ⟨h1, h2⟩
        have hcode : (mkFetchDenialErr b).code = "spending_limit_exceeded" := by
          simpa [AgonErr.isSpendingLimitExceeded] using h1
        have hoa : (mkFetchDenialErr b).details.override_available = some true := by
          simp [AgonErr.isOverrideAvailable] at h2
          exact h2.2
        refine ⟨hcode, hoa, ?_⟩
        cases hasCallback with
        | true => rfl
        | false =>
          exfalso
          simp [fetchAgon, hct, hs, hh, hj, h1, h2,
            handleSpendingLimitOverride] at hout
      · exfalso
        rcases Decidable.not_and_iff_or_not.mp hcl with hno | hno <;>
          simp only [Bool.not_eq_true] at hno <;>
          simp [fetchAgon, hct, hs, hh, hj, hno] at hout
  · intro b hj hcl
    rcases Decidable.not_and_iff_or_not.mp hcl with hno | hno <;>
      simp only [Bool.not_eq_true] at hno <;>
      simp [fetchAgon, hct, hs, hh, hj, hno]
  · intro b hj hcb
    subst hcb
    by_cases h1 : (mkFetchDenialErr b).isSpendingLimitExceeded = true <;>
      by_cases h2 : (mkFetchDenialErr b).isOverrideAvailable = true <;>
      simp only [Bool.not_eq_true] at h1 h2 <;>
      simp [fetchAgon, hct, hs, hh, hj, h1, h2, handleSpendingLimitOverride]
  · intro hj
    simp [fetchAgon, hct, hs, hh, hj]

/-- Closed witness for C4: a plain `insufficient_balance` 402 denial — even
with a callback configured — is raised to the caller as the constructed
`AgonError`. -/
theorem C4_fetch_recovers_one_denial_class_witness :
    (fetchAgon true true
        { createToken := .ok (),
          dispatch := { status := 402, paymentRequiredHeader := none,
                        jsonBody := .ok { error := some "insufficient_balance",
                                          message := some "balance too low" } },
          decision := .approve,
          sign := .error requireAuthErr,
          createToken2 := .error requireAuthErr,
          retryDispatch := { status := 200, paymentRequiredHeader := none,
                             jsonBody := .error () },
          proxyTs := 0, proxyRand := "r", proxyFirst := .error requireAuthErr,
          proxyRetry := .error requireAuthErr }
        "https://merchant.example/api" none none none).1 =
      .error (mkFetchDenialErr { error := some "insufficient_balance",
                                 message := some "balance too low" }) := by
  have h := C4_fetch_recovers_one_denial_class true
    { createToken := .ok (),
      dispatch := { status := 402, paymentRequiredHeader := none,
                    jsonBody := .ok { error := some "insufficient_balance",
                                      message := some "balance too low" } },
      decision := .approve,
      sign := .error requireAuthErr,
      createToken2 := .error requireAuthErr,
      retryDispatch := { status := 200, paymentRequiredHeader := none,
                         jsonBody := .error () },
      proxyTs := 0, proxyRand := "r", proxyFirst := .error requireAuthErr,
      proxyRetry := .error requireAuthErr }
    "https://merchant.example/api" none none none rfl rfl rfl
  exact h.2.1 _ rfl (by decide)

/-- Helper for C9: every `POST /proxy` body emitted by one `proxyX402` call
carries the request id generated once at entry. -/
theorem proxyX402_requestId_unique (hasCallback : Bool) (env : FetchEnv)
    (url : String) (method : Option String)
    (initHeaders : Option (List (String × String))) (initBody : Option String)
    (pr : String) (b : ProxyBody)
    (hb : ClientEvent.proxyPost b ∈
      (proxyX402 hasCallback env url method initHeaders initBody pr).2) :
    b.request_id = mkProxyRequestId env.proxyTs env.proxyRand := by
  unfold proxyX402 at hb
  rcases hf : env.proxyFirst with e | res
  · rw [hf] at hb
    by_cases h1 : (e.isSpendingLimitExceeded && e.isOverrideAvailable) = true
    · simp only [h1] at hb
      cases hasCallback with
      | false => simp at hb; rcases hb with ⟨rfl⟩; rfl
      | true =>
        simp only [Bool.not_true, Bool.false_eq_true, if_false] at hb
        by_cases hd : env.decision = Decision.approve
        · rcases hs : e.getOverrideSignMessage with _ | m
          · simp [hd, hs] at hb; rcases hb with ⟨rfl⟩; rfl
          · rcases hg : env.sign with se | ov
            · simp [hd, hs, hg] at hb; rcases hb with ⟨rfl⟩; rfl
            · rcases hr : env.proxyRetry with re | r <;>
                · simp [hd, hs, hg, hr] at hb
                  rcases hb with rfl | rfl <;> rfl
        · simp [hd] at hb; rcases hb with ⟨rfl⟩; rfl
    · simp only [Bool.not_eq_true] at h1
      simp [h1] at hb
      rcases hb with ⟨rfl⟩; rfl
  · rw [hf] at hb
    simp at hb
    rcases hb with ⟨rfl⟩; rfl

/-- C9: within a single `AgonClient.fetch` call, every `POST /proxy` body —
the first passthrough attempt and the override retry alike — carries the
one request id `proxy_<timestamp>_<random suffix>` generated at entry to
`proxyX402`, so both passthrough attempts of one logical call share one
idempotency key. -/
theorem C9_proxy_request_id_shared (hasApiKey hasCallback : Bool)
    (env : FetchEnv) (url : String) (method : Option String)
    (initHeaders : Option (List (String × String))) (initBody : Option String)
    (b : ProxyBody)
    (hb : ClientEvent.proxyPost b ∈
      (fetchAgon hasApiKey hasCallback env url method initHeaders initBody).2) :
    b.request_id = mkProxyRequestId env.proxyTs env.proxyRand ∧
    mkProxyRequestId env.proxyTs env.proxyRand =
      "proxy_" ++ toString env.proxyTs ++ "_" ++ env.proxyRand := by
  refine ⟨?_, rfl⟩
  unfold fetchAgon at hb
  cases hasApiKey with
  | false => simp at hb
  | true =>
    rcases hct : env.createToken with e | u
    · simp [hct] at hb
    · rw [hct] at hb
      by_cases hs : env.dispatch.status ≠ 402
      · simp [hs] at hb
      · simp only [hs, if_false, Bool.not_true] at hb
        rcases hph : env.dispatch.paymentRequiredHeader with _ | pr
        · simp only [hph] at hb
          rcases hj : env.dispatch.jsonBody with u2 | body
          · simp [hj] at hb
          · rw [hj] at hb
            by_cases hcl : (AgonErr.isSpendingLimitExceeded (mkFetchDenialErr body) &&
                AgonErr.isOverrideAvailable (mkFetchDenialErr body)) = true
            · simp only [hcl, if_true] at hb
              simp at hb
              exfalso
              revert hb
              unfold handleSpendingLimitOverride
              cases hasCallback with
              | false => simp
              | true =>
                by_cases hd : env.decision = Decision.approve
                · rcases hsm : (mkFetchDenialErr body).getOverrideSignMessage with _ | m
                  · simp [hd, hsm]
                  · rcases hg : env.sign with se | ov
                    · simp [hd, hsm, hg]
                    · rcases hc2 : env.createToken2 with ce | cu
                      · simp [hd, hsm, hg, hc2]
                      · by_cases hr : env.retryDispatch.status = 402
                        · rcases hrj : env.retryDispatch.jsonBody with ru | rb <;>
                            simp [hd, hsm, hg, hc2, hr, hrj]
                        · simp [hd, hsm, hg, hc2, hr]
                · simp [hd]
            · simp only [Bool.not_eq_true] at hcl
              simp [hcl] at hb
        · simp only [hph] at hb
          simp at hb
          exact proxyX402_requestId_unique hasCallback env url method
            initHeaders initBody pr b hb

/-- A concrete fetch environment whose passthrough attempt is denied with an
overridable spending limit, so that the call performs both `POST /proxy`
attempts. -/
def c9Env : FetchEnv :=
  { createToken := .ok (),
    dispatch := { status := 402,
                  paymentRequiredHeader := some "x402-challenge",
                  jsonBody := .error () },
    decision := .approve,
    sign := .ok { signature := "sig_b58", message := "agon:override:msg" },
    createToken2 := .ok (),
    retryDispatch := { status := 200, paymentRequiredHeader := none,
                       jsonBody := .error () },
    proxyTs := 1700000000000, proxyRand := "ab12cd34",
    proxyFirst := .error
      { statusCode := 402, code := "spending_limit_exceeded",
        message := "limit",
        details := { override_available := some true,
                     sign_message := some "agon:override:msg" } },
    proxyRetry := .ok { status := 200, body := "done" } }

/-- The first `POST /proxy` body of the `c9Env` run. -/
def c9FirstBody : ProxyBody :=
  { url := "https://merchant.example/api", method := "GET", headers := none,
    body := none, payment_required := "x402-challenge",
    request_id := "proxy_1700000000000_ab12cd34", override := none }

/-- The override-retry `POST /proxy` body of the `c9Env` run. -/
def c9RetryBody : ProxyBody :=
  { c9FirstBody with
    override := some { signature := "sig_b58", message := "agon:override:msg" } }

/-- Closed witness for C9: in the concrete `c9Env` run both `POST /proxy`
bodies occur in the trace and both carry the single generated idempotency
key. -/
theorem C9_proxy_request_id_shared_witness :
    c9FirstBody.request_id = mkProxyRequestId 1700000000000 "ab12cd34" ∧
    c9RetryBody.request_id = mkProxyRequestId 1700000000000 "ab12cd34" :=
  ⟨(C9_proxy_request_id_shared true true c9Env "https://merchant.example/api"
      none none none c9FirstBody (by decide)).1,
   (C9_proxy_request_id_shared true true c9Env "https://merchant.example/api"
      none none none c9RetryBody (by decide)).1⟩

/-- C7 counterexample: the claim that the `ttl` field sent to
`POST /account/create-token` always lies in `[1, 300]` is false — for
`opts.ttl = 500` the client sends `500` unchanged (no client-side
clamping). -/
theorem C7_ttl_clamp_counterexample :
    (createTokenBody (some 500) none).ttl = 500 ∧
    ¬((1 : Int) ≤ (createTokenBody (some 500) none).ttl ∧
      (createTokenBody (some 500) none).ttl ≤ 300) := by
  constructor
  · rfl
  · intro h
    have := h.2
    norm_num [createTokenBody] at this

/-- C7 amended: `createAuthToken` sends `opts.ttl` through unchanged when
it is provided and defaults to `60` when `opts.ttl` is `undefined`; the
client applies no clamping — the `[1, 300]` bounds are the backend's
documented validation of `CreateTokenRequest`, not client behavior. -/
theorem C7_ttl_passthrough_default_60 :
    (∀ t : Int, ∀ m : Option Int, (createTokenBody (some t) m).ttl = t) ∧
    (∀ m : Option Int, (createTokenBody none m).ttl = 60) ∧
    (∀ t m, (createTokenBody t m).max_amount = m) :=
  ⟨fun _ _ => rfl, fun _ => rfl, fun _ _ => rfl⟩

/-- An ASCII lowercasing map, used only to state what "a casing of the
header name" means in C8. -/
def lowerAscii (s : String) : String :=
  String.mk (s.data.map fun c =>
    if 'A' ≤ c ∧ c ≤ 'Z' then Char.ofNat (c.toNat + 32) else c)

/-- A header map whose only entry is the consumer-token header under the
mixed casing `X-Agon-Token`. -/
def c8Headers : HeadersMap :=
  fun k => if k = "X-Agon-Token" then some (.str "tok_1") else none

/-- C8 counterexample: the claim that token extraction succeeds under any
casing of `X-AGON-TOKEN` is false — a map carrying the token only under
the mixed casing `X-Agon-Token` (a casing of the same name, as the
`lowerAscii` equation shows) extracts to `null`. -/
theorem C8_case_insensitive_counterexample :
    lowerAscii "X-Agon-Token" = lowerAscii "X-AGON-TOKEN" ∧
    c8Headers "X-Agon-Token" = some (.str "tok_1") ∧
    extractConsumerToken c8Headers = none := by
  refine ⟨by decide, by decide, by decide⟩

/-- C8 amended: `extractConsumerToken` looks the header up under exactly
two spellings — the all-lowercase `x-agon-token` (the form Node and fetch
header objects normalize to) and the canonical `X-AGON-TOKEN` — returning
the string value when either is present and nonempty, and `null` when both
are absent; any other casing is not consulted. -/
theorem C8_two_spellings (h : HeadersMap) :
    (∀ v : String, h "x-agon-token" = some (.str v) → v ≠ "" →
      extractConsumerToken h = some v) ∧
    (∀ v : String, h "x-agon-token" = none →
      h "X-AGON-TOKEN" = some (.str v) → v ≠ "" →
      extractConsumerToken h = some v) ∧
    (h "x-agon-token" = none → h "X-AGON-TOKEN" = none →
      extractConsumerToken h = none) := by
  refine ⟨?_, ?_, ?_⟩
  · intro v h1 hv
    simp [extractConsumerToken, h1, Option.orElse, headerTruthy, hv, headerFirst]
  · intro v h1 h2 hv
    simp [extractConsumerToken, h1, h2, Option.orElse, headerTruthy, hv, headerFirst]
  · intro h1 h2
    simp [extractConsumerToken, h1, h2, Option.orElse, headerTruthy]

/-- Closed witness for C8 amended: a lowercase-keyed map extracts to its
token and the empty map extracts to `null`. -/
theorem C8_two_spellings_witness :
    extractConsumerToken
      (fun k => if k = "x-agon-token" then some (.str "tok_9") else none) =
      some "tok_9" ∧
    extractConsumerToken (fun _ => none) = none :=
  ⟨(C8_two_spellings
      (fun k => if k = "x-agon-token" then some (.str "tok_9") else none)).1
      "tok_9" (by decide) (by decide),
   (C8_two_spellings (fun _ => none)).2.2 rfl rfl⟩

/-- C10 counterexample: the claim's second half — every amount of absolute
value above `2^53 - 1` is transmitted inexactly — is false at `2^53`
itself, which `Number(...)` represents exactly. -/
theorem C10_large_inexact_counterexample :
    2 ^ 53 - 1 < ((2 : Int) ^ 53).natAbs ∧
    jsNumberOfInt ((2 : Int) ^ 53) = (2 : Int) ^ 53 := by
  constructor
  · norm_num [Int.natAbs_pow]
  · have habs : ((2 : Int) ^ 53).natAbs = 2 ^ 53 := by
      norm_num [Int.natAbs_pow]
    have hneg : ¬((2 : Int) ^ 53 < 0) := by norm_num
    unfold jsNumberOfInt
    rw [if_neg hneg, habs, jsNumberNat_small le_rfl]
    norm_num

/-- C10 amended: both wire serializations use `Number(...)` — the authorize
body's `amount` and the payment-required body's `price` equal
`jsNumberOfInt` of the bigint — which is exact for every amount of absolute
value at most `2^53 - 1`, while amounts beyond that bound are not all
exact: `2^53 + 1` is transmitted as `2^53`. -/
theorem C10_number_serialization (tok rid : String) (amt : Int)
    (ov : Option SpendingOverride) (cfg : PlatformCfg) (price : Int) :
    (mkAuthorizeBody tok rid amt ov).amount = jsNumberOfInt amt ∧
    (buildPaymentRequiredResponse cfg price).2.payment_info.price =
      jsNumberOfInt price ∧
    (∀ n : Int, n.natAbs ≤ 2 ^ 53 - 1 → jsNumberOfInt n = n) ∧
    jsNumberOfInt ((2 : Int) ^ 53 + 1) = (2 : Int) ^ 53 := by
  refine ⟨rfl, rfl, fun n hn => jsNumberOfInt_exact hn, ?_⟩
  have h1 : ((2 : Int) ^ 53 + 1) = ((9007199254740993 : Nat) : Int) := by
    norm_num
  have h2 : ((2 : Int) ^ 53) = ((9007199254740992 : Nat) : Int) := by
    norm_num
  rw [h1, h2]
  have h3 : jsNumberNat 9007199254740993 = 9007199254740992 := by decide
  unfold jsNumberOfInt
  rw [if_neg (by norm_num)]
  norm_num [h3]

/-- Closed witness for C10 amended: the conversion is the identity on the
concrete in-range amount `1000000` ($1 in USDC smallest units). -/
theorem C10_number_serialization_witness :
    (mkAuthorizeBody "tok_1" "req_1" 1000000 none).amount = 1000000 ∧
    jsNumberOfInt 1000000 = 1000000 := by
  have h := C10_number_serialization "tok_1" "req_1" 1000000 none
    { agonUrl := "https://api.agon.so" } 1000000
  have he := h.2.2.1 1000000 (by decide)
  exact ⟨by rw [h.1, he], he⟩

end Agon
